import Mathlib

/-!
# Verification of `pymodis/modislc.py` (class `MCD12Q1`)

A shallow embedding of the MODIS MCD12Q1 land-cover accessor.  Strings are
modelled as `List Char`, Python's `int()` / `float()` as partial parsers into
`ℤ` / `ℚ`, `str.find` and slicing with Python's negative-index semantics, and
the HDF file as a finite association list of attributes and datasets.  The
construction sequence of `MCD12Q1.__init__` is embedded step by step in
`initAcc`, the variable reader `MCD12Q1.get` in `pyGet`, and the destructor
`MCD12Q1.__del__` in `dunderDel`.  The external sinusoidal projection used for
the longitude/latitude grids is modelled mathematically over `ℝ`.
-/

set_option autoImplicit false

namespace Modislc

/-! ## Python string primitives -/

/-- Python index normalisation used by slicing and by `str.find`'s start
argument: a negative index counts from the end, then the index is clamped
into `[0, n]`. -/
def pyClamp (n : ℕ) (i : ℤ) : ℕ :=
  (min (if i < 0 then i + n else i) n).toNat

/-- Python slice `s[i:j]` (step 1) on a list. -/
def pySlice {α : Type} (s : List α) (i j : ℤ) : List α :=
  let lo := pyClamp s.length i
  let hi := pyClamp s.length j
  (s.drop lo).take (hi - lo)

/-- Whether `sub` occurs at the head of `s` (character-wise match). -/
def headMatch : List Char → List Char → Bool
  | [], _ => true
  | _ :: _, [] => false
  | a :: as, b :: bs => a == b && headMatch as bs

/-- Python `s.find(sub, start)`: the lowest index `i ≥ start'` (after index
normalisation) at which `sub` occurs in `s`, and `-1` when there is none. -/
def pyFind (s sub : List Char) (start : ℤ) : ℤ :=
  let n := s.length
  let st := pyClamp n start
  match (List.range (n + 1)).find? (fun i => st ≤ i && headMatch sub (s.drop i)) with
  | some i => (i : ℤ)
  | none => -1

/-- ASCII whitespace stripped by Python's `int()` / `float()` / `str.strip`
(the unicode whitespace cases are irrelevant to the file paths and metadata
strings this module consumes). -/
def pyIsSpace (c : Char) : Bool :=
  c.toNat = 32 || c.toNat = 9 || c.toNat = 10 || c.toNat = 11 ||
  c.toNat = 12 || c.toNat = 13

/-- ASCII decimal digit, as accepted by Python's number parsers. -/
def pyIsDigit (c : Char) : Bool :=
  48 ≤ c.toNat && c.toNat ≤ 57

/-- Numeric value of an ASCII digit. -/
def digitVal (c : Char) : ℤ :=
  (c.toNat : ℤ) - 48

/-- Strip leading and trailing whitespace (Python's number parsers do this). -/
def pyStrip (l : List Char) : List Char :=
  ((l.dropWhile pyIsSpace).reverse.dropWhile pyIsSpace).reverse

/-- Digit run with Python's underscore grouping rule: an underscore may only
stand between two digits.  `acc` is the value of the digits already read. -/
def parseDigitsCore : ℤ → List Char → Option ℤ
  | acc, [] => some acc
  | acc, c :: rest =>
    if pyIsDigit c then parseDigitsCore (10 * acc + digitVal c) rest
    else if c = '_' then
      match rest with
      | [] => none
      | d :: rest' =>
        if pyIsDigit d then parseDigitsCore (10 * acc + digitVal d) rest' else none
    else none

/-- A non-empty digit run (with grouping underscores), as the digit part of a
Python `int()` literal. -/
def parseUDigits : List Char → Option ℤ
  | [] => none
  | c :: rest => if pyIsDigit c then parseDigitsCore (digitVal c) rest else none

/-- Python `int(s)` on an ASCII string: strip whitespace, optional sign,
non-empty decimal digit run; `none` models the `ValueError` raised
otherwise. -/
def pyInt (l : List Char) : Option ℤ :=
  match pyStrip l with
  | [] => none
  | c :: rest =>
    if c = '+' then parseUDigits rest
    else if c = '-' then (parseUDigits rest).map (fun z => -z)
    else parseUDigits (c :: rest)

/-! ## The tile parser (`modislc.py` line 62)

`self.tile = (int(filepath[-27:-25]), int(filepath[-24:-22]))` -/

/-- Line 62 of `modislc.py`: the tile indices read from the fixed negative
slices of the file path; `none` models the `ValueError` from `int()`. -/
def parseTile (path : List Char) : Option (ℤ × ℤ) := do
  let h ← pyInt (pySlice path (-27) (-25))
  let v ← pyInt (pySlice path (-24) (-22))
  return (h, v)

/-! ## Python `float()` on ASCII decimal strings

`numpy.array(strings, dtype="float")` parses each element like Python's
`float()`.  The model covers sign, integer/fraction digits and a decimal
exponent; the `inf`/`nan` spellings and grouping underscores never occur in
the corner metadata this module reads and are not modelled. -/

/-- Value of a digit run (most significant first). -/
def digitsVal (l : List Char) : ℤ :=
  l.foldl (fun acc c => 10 * acc + digitVal c) 0

/-- The exact value `sign · digits(intPart ++ fracPart) · 10 ^ (exp − |fracPart|)`
of a decimal literal, assembled with integer arithmetic and one
`Rat.divInt`. -/
def decimalValue (sign : ℤ) (intPart fracPart : List Char) (exp : ℤ) : ℚ :=
  let m : ℤ := sign * digitsVal (intPart ++ fracPart)
  let d : ℤ := exp - fracPart.length
  if 0 ≤ d then Rat.divInt (m * 10 ^ d.toNat) 1
  else Rat.divInt m (10 ^ (-d).toNat)

/-- Mantissa and exponent of an unsigned float literal: digits, optional
point followed by digits, optional `e`/`E` exponent with optional sign;
at least one mantissa digit is required.  `sign` is the already-consumed
leading sign. -/
def parseUFloat (sign : ℤ) (l : List Char) : Option ℚ :=
  let intPart := l.takeWhile pyIsDigit
  let rest₁ := l.dropWhile pyIsDigit
  let (fracPart, rest₂) :=
    match rest₁ with
    | '.' :: r => (r.takeWhile pyIsDigit, r.dropWhile pyIsDigit)
    | _ => ([], rest₁)
  if intPart = [] ∧ fracPart = [] then none
  else
    match rest₂ with
    | [] => some (decimalValue sign intPart fracPart 0)
    | 'e' :: e | 'E' :: e =>
      let (esign, edigits) :=
        match e with
        | '+' :: d => ((1 : ℤ), d)
        | '-' :: d => ((-1 : ℤ), d)
        | d => ((1 : ℤ), d)
      if edigits ≠ [] ∧ edigits.all pyIsDigit then
        some (decimalValue sign intPart fracPart (esign * digitsVal edigits))
      else none
    | _ => none

/-- Python `float(s)` on an ASCII decimal string; `none` models the
`ValueError` numpy raises for an unparseable element. -/
def pyFloat (l : List Char) : Option ℚ :=
  match pyStrip l with
  | '+' :: rest => parseUFloat 1 rest
  | '-' :: rest => parseUFloat (-1) rest
  | rest => parseUFloat 1 rest

/-! ## Corner extraction from `StructMetadata.0` (`modislc.py` lines 73–81) -/

/-- Errors of the embedded Python code.  The constructors follow the spec's
taxonomy; the concrete exceptions at each site are `ValueError` (from
`int()`, `float()` conversion and sequence unpacking), `pyhdf`'s open error,
a missing-attribute lookup error, the select error for a missing dataset,
and the error `SD.end` raises on a closed handle. -/
inductive PyErr : Type
  | valueError
  | openError
  | metadataError
  | notFoundError
  | endError
  | attributeError
  deriving DecidableEq, Repr

/-- Python `s.split(sep)` for a one-character separator: the empty string
splits to `[""]`, and separators at the ends produce empty fields. -/
def pySplit (sep : Char) : List Char → List (List Char)
  | [] => [[]]
  | c :: rest =>
    let r := pySplit sep rest
    if c = sep then [] :: r
    else
      match r with
      | h :: t => (c :: h) :: t
      | [] => [[c]]

instance exceptDecEq {ε α : Type} [DecidableEq ε] [DecidableEq α] :
    DecidableEq (Except ε α) := fun x y =>
  match x, y with
  | .ok a, .ok b =>
    if h : a = b then isTrue (h ▸ rfl) else isFalse (fun hh => h (Except.ok.inj hh))
  | .error a, .error b =>
    if h : a = b then isTrue (h ▸ rfl) else isFalse (fun hh => h (Except.error.inj hh))
  | .ok _, .error _ => isFalse (fun h => Except.noConfusion h)
  | .error _, .ok _ => isFalse (fun h => Except.noConfusion h)

/-- The unpacking `[x, y] = numpy.array(text.split(","), dtype="float")`: the text must
split on `,` into exactly two float-parseable fields (any other arity or an
unparseable field raises `ValueError`, from unpacking or from numpy). -/
def parsePair (l : List Char) : Except PyErr (ℚ × ℚ) :=
  match (pySplit ',' l).map pyFloat with
  | [some x, some y] => .ok (x, y)
  | _ => .error .valueError

/-- The marker `"UpperLeftPointMtrs=("` (20 characters, line 74/76). -/
def ulMarker : List Char := "UpperLeftPointMtrs=(".toList

/-- The marker `"LowerRightMtrs=("` (16 characters, line 79/81). -/
def lrMarker : List Char := "LowerRightMtrs=(".toList

/-- Lines 74–76 / 79–81 of `modislc.py`: `i1 = s.find(marker)`,
`i2 = s.find(")", i1)`, then parse `s[i1+off : i2]` as a float pair, where
`off` is the marker's length (the literal `20` resp. `16` in the source). -/
def findPair (s marker : List Char) (off : ℤ) : Except PyErr (ℚ × ℚ) :=
  let i1 := pyFind s marker 0
  let i2 := pyFind s [')'] i1
  parsePair (pySlice s (i1 + off) i2)

/-- Lines 73–81 of `modislc.py`: the two corner pairs
`(x_ul, y_ul, x_lr, y_lr)` read from the structure-metadata string. -/
def parseCorners (s : List Char) : Except PyErr (ℚ × ℚ × ℚ × ℚ) := do
  let (xul, yul) ← findPair s ulMarker 20
  let (xlr, ylr) ← findPair s lrMarker 16
  return (xul, yul, xlr, ylr)

/-! ## Product constants (`modislc.py` lines 54–58) -/

/-- Number of MODIS tiles in the horizontal globally (line 54). -/
def nhtiles : ℕ := 36

/-- Number of MODIS tiles in the vertical globally (line 55). -/
def nvtiles : ℕ := 18

/-- Edge length of a MODIS pixel in meters, `463.312716525` (line 56). -/
def pixel_size : ℚ := Rat.divInt 463312716525 1000000000

/-- Number of pixels along the edge of a MODIS tile (line 57). -/
def npixels : ℕ := 2400

/-- The sphere radius `6371007.181` of the sinusoidal projection
(`self.proj["a"]`, line 58, also passed as `+R=` on line 71). -/
def projRadius : ℚ := Rat.divInt 6371007181 1000

/-! ## Legend tables and the colormap (`modislc.py` lines 93–168)

Transcribed verbatim from the source.  Note line 135 of the source: the
list item `"8 - Broadleaf Croplands"` is not followed by a comma, so Python
concatenates it with the next literal and `lc5_legend` holds the single
element `"8 - Broadleaf Croplands9 - Urban and Built-up Lands"`. -/

/-- IGBP legend (LC_Type1), lines 94–100. -/
def lc1_legend : List String :=
  ["1 - Evergreen Needleleaf Forests", "2 - Evergreen Broadleaf Forests",
   "3 - Deciduous Needleleaf Forests", "4 - Deciduous Broadleaf Forests",
   "5 - Mixed Forests", "6 - Closed Shrublands", "7 - Open Shrublands",
   "8 - Woody Savannas", "9 - Savannas", "10 - Grasslands",
   "11 - Permanent Wetlands", "12 - Croplands", "13 - Urban and Built-up",
   "14 - Cropland/Natural Vegetation Mosaics", "15 - Permanent Snow and Ice",
   "16 - Barren", "17 - Water Bodies", "255 - Unclassified"]

/-- IGBP colormap (LC_Type1), the `ListedColormap` colors of lines 103–106. -/
def lc1_cmap : List String :=
  ["darkgreen", "forestgreen", "darkolivegreen",
   "olivedrab", "greenyellow", "olive", "darkkhaki", "darkorange", "orange",
   "yellow", "navy", "mediumorchid", "red", "mediumpurple", "lightcyan",
   "sienna", "blue", "grey"]

/-- UMD legend (LC_Type2), lines 109–115. -/
def lc2_legend : List String :=
  ["0 - Water bodies", "1 - Evergreen Needleleaf Forests",
   "2 - Evergreen Broadleaf Forests", "3 - Deciduous Needleleaf Forests",
   "4 - Deciduous Broadleaf Forests",
   "5 - Mixed Forests", "6 - Closed Shrublands", "7 - Open Shrublands",
   "8 - Woody Savannas", "9 - Savannas", "10 - Grasslands",
   "11 - Permanent Wetlands", "12 - Croplands", "13 - Urban and Built-up",
   "14 - Cropland/Natural Vegetation Mosaics", "15 - Non-Vegetated Lands",
   "255 - Unclassified"]

/-- LAI legend (LC_Type3), lines 118–122. -/
def lc3_legend : List String :=
  ["0 - Water bodies", "1 - Grasslands", "2 - Shrublands",
   "3 - Broadleaf Croplands", "4 - Savannas", "5 - Evergreen Broadleaf Forests",
   "6 - Deciduous Broadleaf Forests", "7 - Evergreen Needleleaf Forests",
   "8 - Deciduous Needleleaf Forests", "9 - Non-vegetated Lands",
   "10 - Urban and Built-up Lands", "255 - Unclassified"]

/-- BGC legend (LC_Type4), lines 125–129. -/
def lc4_legend : List String :=
  ["0 - Water bodies", "1 - Evergreen Needleleaf Vegetation",
   "2 - Evergreen Broadleaf Vegetation", "3 - Deciduous Broadleaf Vegetation",
   "4 - Deciduous Needleleaf Vegetation", "5 - Annual Broadleaf Vegetation",
   "6 - Annual Grass Vegetation", "7 - Non-vegetated Lands",
   "8 - Urban and Built-up Lands", "255 - Unclassified"]

/-- PFT legend (LC_Type5), lines 132–137.  The missing comma after
`"8 - Broadleaf Croplands"` on line 135 makes Python concatenate two string
literals into one element. -/
def lc5_legend : List String :=
  ["0 - Water bodies", "1 - Evergreen Needleleaf Trees",
   "2 - Evergreen Broadleaf Trees", "3 - Deciduous Broadleaf Trees",
   "4 - Deciduous Needleleaf Trees", "5 - Shrub",
   "6 - Grass", "7 - Cereal Croplands",
   "8 - Broadleaf Croplands9 - Urban and Built-up Lands",
   "10 - Permanent Snow and Ice",
   "11 - Barren", "255 - Unclassified"]

/-- FAO-LCCS1 legend (LC_Prop1), lines 140–147. -/
def lp1_legend : List String :=
  ["1 - Barren", "2 - Permanent Snow and Ice", "3 - Water bodies",
   "11 - Evergreen Needleleaf Forests", "12 - Evergreen Broadleaf Forests",
   "13 - Deciduous Needleleaf Forests", "14 - Deciduous Broadleaf Forests",
   "15 - Mixed Broadleaf/Needleleaf Forests",
   "16 - Mixed Evergreen Broadleaf/Needleleaf Forests", "21 - Open Forests",
   "22 - Sparse Forests", "31 - Dense Herbaceous", "32 - Sparse Herbaceous",
   "41 - Dense Shrublands", "42 - Shrubland/Grassland Mosaics",
   "43 - Sparse Shrublands", "255 - Unclassified"]

/-- FAO-LCCS2 legend (LC_Prop2), lines 150–154. -/
def lp2_legend : List String :=
  ["1 - Barren", "2 - Permanent Snow and Ice", "3 - Water Bodies",
   "9 - Urban and Built-up Lands", "10 - Dense Forests", "20 - Open Forests",
   "25 - Forest/Cropland Mosaics", "30 - Natural Herbaceous",
   "35 - natural Herbaceous/Croplands Mosaics", "36 - Herbaceous Croplands",
   "40 - Shrublands", "255 - Unclassified"]

/-- FAO-LCCS3 legend (LC_Prop3), lines 157–160. -/
def lp3_legend : List String :=
  ["1 - Barren", "2 - Permanent Snow and Ice", "3 - Water Bodies",
   "10 - Dense Forests", "20 - Open Forests", "27 - Woody Wetlands",
   "30 - Grasslands", "40 - Shrublands", "50 - Herbaceous Wetlands",
   "51 - Tundra", "255 - Unclassified"]

/-- Quality-control legend (QC), lines 163–168. -/
def qc_legend : List String :=
  ["0 - Classified Land", "1 - Unclassified Land",
   "2 - Classified Water", "3 - Unclassified Water",
   "4 - Classified Sea Ice", "5 - Misclassified water",
   "6 - Omitted Snow/Ice", "7 - Misclassified Snow/Ice",
   "8 - Backfilled Label", "9 - Forest Type Changed",
   "10 - No Data"]

/-- The legend-list attributes the constructor sets, in source order
(lines 94–168), with their attribute names. -/
def legendTables : List (String × List String) :=
  [("lc1_legend", lc1_legend), ("lc2_legend", lc2_legend),
   ("lc3_legend", lc3_legend), ("lc4_legend", lc4_legend),
   ("lc5_legend", lc5_legend), ("lp1_legend", lp1_legend),
   ("lp2_legend", lp2_legend), ("lp3_legend", lp3_legend),
   ("qc_legend", qc_legend)]

/-- The colormap attributes the constructor sets: only `lc1_cmap`
(lines 103–106); no other `*_cmap` attribute exists in the source. -/
def colorMaps : List (String × List String) :=
  [("lc1_cmap", lc1_cmap)]

/-- Leading category code of a legend entry: the integer spelled by its
leading digits (`-1` when there is none). -/
def leadingCode (s : String) : ℤ :=
  (pyInt (s.toList.takeWhile pyIsDigit)).getD (-1)

/-- The land-cover legends (the `lcN_legend` attributes, N = 1..5). -/
def landCoverLegends : List (String × List String) :=
  [("lc1_legend", lc1_legend), ("lc2_legend", lc2_legend),
   ("lc3_legend", lc3_legend), ("lc4_legend", lc4_legend),
   ("lc5_legend", lc5_legend)]

/-! ## Coordinate sequences and grids (`modislc.py` lines 84–86) -/

/-- The sequence `numpy.linspace(a, b, n, endpoint=True)` in exact arithmetic:
`a + i·(b−a)/(n−1)` for `i = 0, …, n−1` (numpy overwrites the final element
with `b`, which in exact arithmetic is the same value). -/
def linspace {α : Type} [Field α] (a b : α) (n : ℕ) : List α :=
  (List.range n).map (fun i : ℕ => a + (i : α) * ((b - a) / ((n - 1 : ℕ) : α)))

/-- The grids `numpy.meshgrid(xs, ys)`: the pair `(X, Y)` of `ys.length × xs.length`
grids with `X[i][j] = xs[j]` and `Y[i][j] = ys[i]`. -/
def meshgrid {α : Type} (xs ys : List α) : List (List α) × List (List α) :=
  (ys.map (fun _ => xs), ys.map (fun y => xs.map (fun _ => y)))

/-- Lines 84–86: `x1 = linspace(x_ul, x_lr, npixels)`,
`y1 = linspace(y_ul, y_lr, npixels)`, `x2, y2 = meshgrid(x1, y1)`. -/
def gridXY (xul yul xlr ylr : ℚ) : List (List ℚ) × List (List ℚ) :=
  meshgrid (linspace xul xlr npixels) (linspace yul ylr npixels)

/-- Line 89 applied to the first coordinate: the longitude grid obtained by
mapping an inverse-projection capability `inv` over corresponding entries of
the planar grids (`pyproj` applies the transform pointwise). -/
def lonsGrid (inv : ℚ → ℚ → ℝ × ℝ) (x2 y2 : List (List ℚ)) : List (List ℝ) :=
  List.zipWith (fun xr yr => List.zipWith (fun x y => (inv x y).1) xr yr) x2 y2

/-- Line 89 applied to the second coordinate: the latitude grid. -/
def latsGrid (inv : ℚ → ℚ → ℝ × ℝ) (x2 y2 : List (List ℚ)) : List (List ℝ) :=
  List.zipWith (fun xr yr => List.zipWith (fun x y => (inv x y).2) xr yr) x2 y2

/-- Modelled from the spec: the external map-projection capability of
lines 71 and 89 (`pyproj` with `+proj=sinu +R=6371007.181`, called with
`inverse=True`), which is not code of this repository.  The inverse of the
sinusoidal projection on a sphere of radius `R`, in degrees:
`lat = (y/R)·(180/π)` and `lon = (x/(R·cos(y/R)))·(180/π)`. -/
noncomputable def sinuInv (x y : ℚ) : ℝ × ℝ :=
  let R : ℝ := ((projRadius : ℚ) : ℝ)
  (((x : ℝ) / (R * Real.cos ((y : ℝ) / R))) * (180 / Real.pi),
   ((y : ℝ) / R) * (180 / Real.pi))

/-! ## The HDF file model and the accessor -/

/-- Modelled from the spec: the hierarchical file reader capability — a file
is a finite collection of named global text attributes and named datasets
(the dataset payload type `Arr` is abstract: `get` returns it untouched). -/
structure SDFile (Arr : Type) where
  attrs : List (String × List Char)
  datasets : List (String × Arr)

/-- The attributes of `MCD12Q1` after a successful `__init__`. -/
structure Accessor (Arr : Type) where
  nhtiles : ℕ
  nvtiles : ℕ
  pixel_size : ℚ
  npixels : ℕ
  tile : ℤ × ℤ
  hfile : SDFile Arr
  structMeta : List Char
  coreMeta : List Char
  xgrid : List (List ℚ)
  ygrid : List (List ℚ)
  lc1_legend : List String
  lc1_cmap : List String
  lc2_legend : List String
  lc3_legend : List String
  lc4_legend : List String
  lc5_legend : List String
  lp1_legend : List String
  lp2_legend : List String
  lp3_legend : List String
  qc_legend : List String

/-- Constructor `MCD12Q1.__init__` (lines 52–168), step by step in source order.  The
second component records whether the `SD.SD(filepath, SD.SDC.READ)` call of
line 65 was reached.  `fs = none` models a path that cannot be opened as an
HDF file.  The planar grids `x2, y2` are stored; the longitude/latitude
grids of line 89 are `lonsGrid`/`latsGrid` of an inverse-projection
capability applied to them. -/
def initAcc {Arr : Type} (path : List Char) (fs : Option (SDFile Arr)) :
    Except PyErr (Accessor Arr) × Bool :=
  -- line 62: tile parsing happens before the file is opened
  match parseTile path with
  | none => (.error .valueError, false)
  | some t =>
    -- line 65: SD.SD(filepath, SD.SDC.READ)
    match fs with
    | none => (.error .openError, true)
    | some f =>
      -- lines 66–67: attributes()["StructMetadata.0"], ["CoreMetadata.0"]
      match f.attrs.lookup "StructMetadata.0" with
      | none => (.error .metadataError, true)
      | some sm =>
        match f.attrs.lookup "CoreMetadata.0" with
        | none => (.error .metadataError, true)
        | some cm =>
          -- lines 73–81: corner extraction
          match parseCorners sm with
          | .error e => (.error e, true)
          | .ok (xul, yul, xlr, ylr) =>
            -- lines 84–86: the planar coordinate grids
            let g := gridXY xul yul xlr ylr
            (.ok
              { nhtiles := nhtiles
                nvtiles := nvtiles
                pixel_size := pixel_size
                npixels := npixels
                tile := t
                hfile := f
                structMeta := sm
                coreMeta := cm
                xgrid := g.1
                ygrid := g.2
                lc1_legend := lc1_legend
                lc1_cmap := lc1_cmap
                lc2_legend := lc2_legend
                lc3_legend := lc3_legend
                lc4_legend := lc4_legend
                lc5_legend := lc5_legend
                lp1_legend := lp1_legend
                lp2_legend := lp2_legend
                lp3_legend := lp3_legend
                qc_legend := qc_legend }, true)

/-! ## `MCD12Q1.get` (lines 171–172) -/

/-- Modelled from the spec: `hfile.select(varname)` — the reader capability
returns the named dataset, and fails (the spec's `NotFoundError`; `pyhdf`
raises `HDF4Error`) when no dataset has that name. -/
def sdSelect {Arr : Type} (f : SDFile Arr) (name : String) : Except PyErr Arr :=
  match f.datasets.lookup name with
  | some a => .ok a
  | none => .error .notFoundError

/-- The `[:]` full slice on a selected dataset: the whole stored array,
unchanged. -/
def sliceAll {Arr : Type} (a : Arr) : Arr := a

/-- Method `MCD12Q1.get` (lines 171–172): `return self.hfile.select(varname)[:]`. -/
def pyGet {Arr : Type} (acc : Accessor Arr) (varname : String) : Except PyErr Arr :=
  (sdSelect acc.hfile varname).map sliceAll

/-! ## `MCD12Q1.__del__` (lines 175–179) -/

/-- State of the HDF handle behind `self.hfile`. -/
inductive HandleState : Type
  | opened
  | closed
  deriving DecidableEq

/-- Modelled from the spec: `SD.end()` releases an open handle; ending an
already-ended handle fails (the error the `except` clause swallows). -/
def sdEnd : HandleState → Except PyErr HandleState
  | .opened => .ok .closed
  | .closed => .error .endError

/-- The body of the `try:` block, line 177: `self.hfile.end()`.  A `none`
handle models an object on which `__init__` failed before line 65, so that
`self.hfile` was never set and the attribute access itself raises. -/
def delBody : Option HandleState → Except PyErr HandleState
  | none => .error .attributeError
  | some s => sdEnd s

/-- Destructor `MCD12Q1.__del__` (lines 175–179): run the body and swallow any error
(`except: pass`), leaving the handle as it was when the body failed. -/
def dunderDel (h : Option HandleState) : Except PyErr (Option HandleState) :=
  match delBody h with
  | .ok s => .ok (some s)
  | .error _ => .ok h

/-- Whether a call of `__del__` on handle state `h` actually releases the
handle: exactly when the `end()` call succeeds. -/
def releasesHandle (h : Option HandleState) : Bool :=
  h = some .opened

/-! ## Sanity checks on concrete inputs -/

example : parseTile "MCD12Q1.A2019001.h09v05.006.2019170190555.hdf".toList
    = some (9, 5) := by decide

example : parseTile "ab".toList = none := by decide

example : pyFloat "00001.0".toList = some 1 := by decide

example : pyFloat "-20015109.354".toList = some (Rat.divInt (-20015109354) 1000) := by
  decide

example : pyFloat "1.5e3".toList = some 1500 := by decide

example : pyFloat "a1.0".toList = none := by decide

example : pySplit ',' "1.0,2.0".toList = ["1.0".toList, "2.0".toList] := by decide

example :
    parseCorners ("UpperLeftPointMtrs=(-20015109.354,1111950.519)\n" ++
        "LowerRightMtrs=(-18903158.834,0.0)").toList
      = .ok (Rat.divInt (-20015109354) 1000, Rat.divInt 1111950519 1000,
          Rat.divInt (-18903158834) 1000, 0) := by
  decide

/-! ## Claim theorems -/

/-- C9: `__del__` never raises, may run on a closed or never-opened handle,
swallows the error `end()` raises there, and two successive invocations
release the handle at most once in total. -/
theorem c9_teardown_idempotent (h : Option HandleState) :
    ∃ h', dunderDel h = .ok h' ∧
      (∃ h'', dunderDel h' = .ok h'') ∧
      (releasesHandle h).toNat + (releasesHandle h').toNat ≤ 1 := by
  rcases h with _ | s
  · exact ⟨none, rfl, ⟨none, rfl⟩, by decide⟩
  · cases s
    · exact ⟨some .closed, rfl, ⟨some .closed, rfl⟩, by decide⟩
    · exact ⟨some .closed, rfl, ⟨some .closed, rfl⟩, by decide⟩

/-- C9 witness: on an open handle, `__del__` succeeds, a second `__del__`
succeeds as well, and the handle is released exactly once in total. -/
theorem c9_teardown_idempotent_witness :
    ∃ h', dunderDel (some .opened) = .ok h' ∧
      (∃ h'', dunderDel h' = .ok h'') ∧
      (releasesHandle (some .opened)).toNat + (releasesHandle h').toNat ≤ 1 :=
  c9_teardown_idempotent (some .opened)

/-- C5: `get(varname)` returns exactly the stored array of the named dataset
(no transformation is applied: the payload type is abstract and the value
returned is the looked-up value itself), and it fails with the not-found
error exactly when no dataset of the open file has that name.  `pyGet` is a
pure function, so a successful call has no effect on the accessor. -/
theorem c5_get_returns_stored {Arr : Type} (acc : Accessor Arr) (varname : String) :
    (∀ a : Arr, pyGet acc varname = .ok a ↔
      acc.hfile.datasets.lookup varname = some a) ∧
    (pyGet acc varname = .error .notFoundError ↔
      acc.hfile.datasets.lookup varname = none) := by
  unfold pyGet sdSelect sliceAll
  cases h : acc.hfile.datasets.lookup varname <;>
    simp [Except.map, h]

/-- C7 counterexample: the constructor sets nine legend tables, not eight,
and `lc5_legend` does not have one entry per category code: the missing
comma on line 135 merges the entries for codes 8 and 9 into the single
element at index 8, leaving 12 entries and no entry whose code is 9. -/
theorem c7_counterexample :
    legendTables.length = 9 ∧ legendTables.length ≠ 8 ∧
    lc5_legend.length = 12 ∧
    lc5_legend[8]! = "8 - Broadleaf Croplands9 - Urban and Built-up Lands" := by
  refine ⟨rfl, by decide, rfl, rfl⟩

/-- C7 amended: the accessor exposes nine legend tables (five land-cover,
three land-property, one quality-control); `lc1_legend` has 18 entries; each
table lists each of its category codes once, except `lc5_legend`, where the
missing comma of line 135 merges the entries for codes 8 and 9 into one
element (so its code list skips 9). -/
theorem c7_nine_legend_tables :
    legendTables.length = 9 ∧
    legendTables.map (fun p => (p.1, p.2.length)) =
      [("lc1_legend", 18), ("lc2_legend", 17), ("lc3_legend", 12),
       ("lc4_legend", 10), ("lc5_legend", 12), ("lp1_legend", 17),
       ("lp2_legend", 12), ("lp3_legend", 11), ("qc_legend", 11)] ∧
    legendTables.map (fun p => p.2.map leadingCode) =
      [[1, 2, 3, 4, 5, 6, 7, 8, 9, 10, 11, 12, 13, 14, 15, 16, 17, 255],
       [0, 1, 2, 3, 4, 5, 6, 7, 8, 9, 10, 11, 12, 13, 14, 15, 255],
       [0, 1, 2, 3, 4, 5, 6, 7, 8, 9, 10, 255],
       [0, 1, 2, 3, 4, 5, 6, 7, 8, 255],
       [0, 1, 2, 3, 4, 5, 6, 7, 8, 10, 11, 255],
       [1, 2, 3, 11, 12, 13, 14, 15, 16, 21, 22, 31, 32, 41, 42, 43, 255],
       [1, 2, 3, 9, 10, 20, 25, 30, 35, 36, 40, 255],
       [1, 2, 3, 10, 20, 27, 30, 40, 50, 51, 255],
       [0, 1, 2, 3, 4, 5, 6, 7, 8, 9, 10]] ∧
    (legendTables.map (fun p => p.2.map leadingCode)).all
      (fun codes => codes.Nodup) = true := by
  refine ⟨rfl, by decide, by decide, by decide⟩

/-- C8 counterexample: only one colormap attribute exists (`lc1_cmap`), so
it is false that every land-cover legend except exactly one has a color
map — that would take `landCoverLegends.length - 1 = 4` colormaps (or more
under the spec's count of seven land-cover legends), but the source defines
exactly 1. -/
theorem c8_counterexample :
    colorMaps.length = 1 ∧ landCoverLegends.length = 5 ∧
    colorMaps.length ≠ landCoverLegends.length - 1 := by
  refine ⟨rfl, rfl, by decide⟩

/-- C8 amended: exactly one land-cover legend, `lc1_legend`, has a color
map; that color map is aligned index-for-index with it (both have 18
entries). -/
theorem c8_single_cmap_aligned :
    colorMaps = [("lc1_cmap", lc1_cmap)] ∧
    lc1_cmap.length = lc1_legend.length ∧ lc1_cmap.length = 18 := by
  refine ⟨rfl, rfl, rfl⟩

/-- C10: when either fixed slice of the path fails to parse as a decimal
integer, `__init__` stops at line 62 with the parse error (`ValueError`,
not the open error), and the `SD.SD` open call of line 65 is never reached:
no file handle is acquired. -/
theorem c10_parse_failure_before_open {Arr : Type} (path : List Char)
    (fs : Option (SDFile Arr))
    (h : pyInt (pySlice path (-27) (-25)) = none ∨
         pyInt (pySlice path (-24) (-22)) = none) :
    initAcc path fs = (.error .valueError, false) := by
  have ht : parseTile path = none := by
    unfold parseTile
    rcases h with h | h
    · rw [h]; rfl
    · cases h1 : pyInt (pySlice path (-27) (-25)) <;> simp [h1, h]
  unfold initAcc
  rw [ht]

/-- C10 witness: the two-character path `"ab"` has empty tile slices, so
construction fails with the parse error without the file being opened. -/
theorem c10_parse_failure_witness :
    initAcc "ab".toList (none : Option (SDFile Unit))
      = (.error .valueError, false) :=
  c10_parse_failure_before_open "ab".toList none (Or.inl (by decide))

/-- A Python slice with negative bounds `s[-i:-j]`, `0 < j ≤ i ≤ |suffix|`,
only looks at the last `|suffix|` characters of the string. -/
theorem pySlice_append_fromEnd (p s : List Char) (i j : ℤ)
    (h0 : 0 < j) (hij : j ≤ i) (hi : i ≤ (s.length : ℤ)) :
    pySlice (p ++ s) (-i) (-j) =
      (s.drop (s.length - i.toNat)).take (i.toNat - j.toNat) := by
  have e1 : pyClamp (p ++ s).length (-i) = p.length + (s.length - i.toNat) := by
    unfold pyClamp
    rw [List.length_append, if_pos (by omega : -i < 0)]
    push_cast
    omega
  have e2 : pyClamp (p ++ s).length (-j) = p.length + (s.length - j.toNat) := by
    unfold pyClamp
    rw [List.length_append, if_pos (by omega : -j < 0)]
    push_cast
    omega
  simp only [pySlice]
  rw [e1, e2]
  have e3 : p.length + (s.length - j.toNat) - (p.length + (s.length - i.toNat))
      = i.toNat - j.toNat := by omega
  rw [e3]
  congr 1
  simp [@List.drop_append _ p s (s.length - i.toNat)]

/-- A digit character is none of the characters `int()` treats specially. -/
theorem digit_not_special {c : Char} (h : pyIsDigit c = true) :
    pyIsSpace c = false ∧ c ≠ '+' ∧ c ≠ '-' := by
  simp only [pyIsDigit, Bool.and_eq_true, decide_eq_true_eq] at h
  refine ⟨?_, ?_, ?_⟩
  · simp only [pyIsSpace, Bool.or_eq_false_iff, decide_eq_false_iff_not]
    omega
  · intro hc; subst hc; exact absurd h (by decide)
  · intro hc; subst hc; exact absurd h (by decide)

/-- Parsing `int()` on a two-digit string gives the two-digit decimal value. -/
theorem pyInt_two_digits (a b : Char)
    (ha : pyIsDigit a = true) (hb : pyIsDigit b = true) :
    pyInt [a, b] = some (10 * digitVal a + digitVal b) := by
  obtain ⟨has, hap, ham⟩ := digit_not_special ha
  obtain ⟨hbs, _, _⟩ := digit_not_special hb
  have hstrip : pyStrip [a, b] = [a, b] := by
    simp [pyStrip, List.dropWhile_cons, has, hbs]
  simp [pyInt, hstrip, hap, ham, parseUDigits, parseDigitsCore, ha, hb]

/-- C1: for any path that ends in `h`, two digit characters, `v`, two digit
characters and then 22 further characters (the `.CCC.PPPPPPPPPPPPP.hdf`
suffix of the naming convention), line 62 parses the tile as the pair of
two-digit decimal numbers at those positions.  The slices `[-27:-25]` and
`[-24:-22]` are exactly the two digit pairs of `hHHvVV`. -/
theorem c1_tile_from_filename (p : List Char) (h1 h2 v1 v2 : Char)
    (tl : List Char) (hlen : tl.length = 22)
    (hh1 : pyIsDigit h1 = true) (hh2 : pyIsDigit h2 = true)
    (hv1 : pyIsDigit v1 = true) (hv2 : pyIsDigit v2 = true) :
    parseTile (p ++ 'h' :: h1 :: h2 :: 'v' :: v1 :: v2 :: tl)
      = some (10 * digitVal h1 + digitVal h2, 10 * digitVal v1 + digitVal v2) := by
  set s : List Char := 'h' :: h1 :: h2 :: 'v' :: v1 :: v2 :: tl with hs
  have hslen : s.length = 28 := by simp [hs, hlen]
  have e1 : pySlice (p ++ s) (-27) (-25) = [h1, h2] := by
    rw [show ((-27 : ℤ)) = -(27 : ℤ) from rfl, show ((-25 : ℤ)) = -(25 : ℤ) from rfl,
      pySlice_append_fromEnd p s 27 25 (by omega) (by omega) (by omega)]
    rw [hslen]
    simp [hs, List.take]
  have e2 : pySlice (p ++ s) (-24) (-22) = [v1, v2] := by
    rw [show ((-24 : ℤ)) = -(24 : ℤ) from rfl, show ((-22 : ℤ)) = -(22 : ℤ) from rfl,
      pySlice_append_fromEnd p s 24 22 (by omega) (by omega) (by omega)]
    rw [hslen]
    simp [hs, List.take]
  unfold parseTile
  rw [e1, e2, pyInt_two_digits h1 h2 hh1 hh2, pyInt_two_digits v1 v2 hv1 hv2]
  rfl

/-- C1 witness: the standard file name `MCD12Q1.A2019001.h09v05.006.2019170190555.hdf`
yields tile indices `(9, 5)`. -/
theorem c1_tile_witness :
    parseTile ("MCD12Q1.A2019001.".toList ++
        'h' :: '0' :: '9' :: 'v' :: '0' :: '5' :: ".006.2019170190555.hdf".toList)
      = some (9, 5) :=
  (c1_tile_from_filename "MCD12Q1.A2019001.".toList '0' '9' '0' '5'
      ".006.2019170190555.hdf".toList (by decide) (by decide) (by decide)
      (by decide) (by decide)).trans (by decide)

/-- C2 counterexample: the 27-character structure-metadata string
`"00000000000000000001.0,2.0)"` does not contain the marker
`"UpperLeftPointMtrs=("` (`find` returns `-1`), yet corner extraction
succeeds with the fabricated corners `(1, 2, 1, 2)`, and a full
construction over a file carrying this metadata completes — no error of any
kind is raised, so the accessor is built with a silently wrong coordinate
grid. -/
theorem c2_counterexample :
    pyFind "00000000000000000001.0,2.0)".toList ulMarker 0 = -1 ∧
    parseCorners "00000000000000000001.0,2.0)".toList = .ok (1, 2, 1, 2) ∧
    (initAcc "MCD12Q1.A2019001.h09v05.006.2019170190555.hdf".toList
        (some ({ attrs := [("StructMetadata.0", "00000000000000000001.0,2.0)".toList),
                          ("CoreMetadata.0", [])],
                 datasets := [] } : SDFile Unit))).1.isOk = true := by
  refine ⟨by decide, by decide, by decide⟩

/-- C2 amended: when the structure-metadata string lacks the
`"UpperLeftPointMtrs=("` marker, `find` yields the sentinel `-1` rather
than an error, and the upper-left extraction silently degenerates to
parsing the fixed fallback slice `s[19 : s.find(")", -1)]`; construction
fails (with `ValueError`, from unpacking or float conversion) only when
that fallback text is not a two-float pair, and otherwise completes with a
wrong grid. -/
theorem c2_missing_marker_fallback (s : List Char)
    (h : pyFind s ulMarker 0 = -1) :
    findPair s ulMarker 20 = parsePair (pySlice s 19 (pyFind s [')'] (-1))) := by
  unfold findPair
  rw [h]
  norm_num

/-- C2 amended witness: on the counterexample string the upper-left
extraction is exactly the fallback-slice parse. -/
theorem c2_missing_marker_fallback_witness :
    findPair "00000000000000000001.0,2.0)".toList ulMarker 20
      = parsePair (pySlice "00000000000000000001.0,2.0)".toList 19
          (pyFind "00000000000000000001.0,2.0)".toList [')'] (-1))) :=
  c2_missing_marker_fallback "00000000000000000001.0,2.0)".toList (by decide)

theorem linspace_length {α : Type} [Field α] (a b : α) (n : ℕ) :
    (linspace a b n).length = n := by
  rw [linspace, List.length_map, List.length_range]

theorem linspace_getElem! {α : Type} [Field α] [Inhabited α] (a b : α)
    {n i : ℕ} (h : i < n) :
    (linspace a b n)[i]! = a + (i : α) * ((b - a) / ((n - 1 : ℕ) : α)) := by
  have hl : i < (linspace a b n).length := by
    rw [linspace_length]
    exact h
  rw [getElem!_pos (linspace a b n) i hl]
  simp [linspace]

/-- C3: whatever corners line 76/81 produced and whatever the projection
capability computes pointwise, the longitude grid and the latitude grid of
line 89 are both `npixels × npixels = 2400 × 2400`, and in particular they
have identical shape to each other. -/
theorem c3_grid_shapes (xul yul xlr ylr : ℚ) (inv : ℚ → ℚ → ℝ × ℝ) :
    (lonsGrid inv (gridXY xul yul xlr ylr).1 (gridXY xul yul xlr ylr).2).length
        = npixels ∧
    (∀ row ∈ lonsGrid inv (gridXY xul yul xlr ylr).1 (gridXY xul yul xlr ylr).2,
        row.length = npixels) ∧
    (latsGrid inv (gridXY xul yul xlr ylr).1 (gridXY xul yul xlr ylr).2).length
        = npixels ∧
    (∀ row ∈ latsGrid inv (gridXY xul yul xlr ylr).1 (gridXY xul yul xlr ylr).2,
        row.length = npixels) ∧
    npixels = 2400 := by
  refine ⟨?_, ?_, ?_, ?_, rfl⟩
  · simp [lonsGrid, gridXY, meshgrid, List.length_zipWith, List.length_map,
      linspace_length]
  · intro row hrow
    rw [List.mem_iff_getElem] at hrow
    obtain ⟨i, hi, rfl⟩ := hrow
    simp [lonsGrid, gridXY, meshgrid, List.getElem_zipWith, List.length_zipWith,
      List.getElem_map, List.length_map, linspace_length]
  · simp [latsGrid, gridXY, meshgrid, List.length_zipWith, List.length_map,
      linspace_length]
  · intro row hrow
    rw [List.mem_iff_getElem] at hrow
    obtain ⟨i, hi, rfl⟩ := hrow
    simp [latsGrid, gridXY, meshgrid, List.getElem_zipWith, List.length_zipWith,
      List.getElem_map, List.length_map, linspace_length]

/-- C4: the interpolated coordinate sequence of line 84/85 starts exactly at
the parsed upper-left value, ends exactly at the parsed lower-right value,
and is monotonic between them: nondecreasing when `a ≤ b` and nonincreasing
when `b ≤ a` (the `x` and `y` sequences are both instances of this
statement). -/
theorem c4_linspace_endpoints_monotone (a b : ℚ) :
    (linspace a b npixels)[0]! = a ∧
    (linspace a b npixels)[npixels - 1]! = b ∧
    (∀ i j : ℕ, i ≤ j → j < npixels → a ≤ b →
      (linspace a b npixels)[i]! ≤ (linspace a b npixels)[j]!) ∧
    (∀ i j : ℕ, i ≤ j → j < npixels → b ≤ a →
      (linspace a b npixels)[j]! ≤ (linspace a b npixels)[i]!) := by
  have hn : (0 : ℕ) < npixels := by norm_num [npixels]
  refine ⟨?_, ?_, ?_, ?_⟩
  · rw [linspace_getElem! a b hn]
    push_cast
    ring
  · rw [linspace_getElem! a b (show npixels - 1 < npixels by norm_num [npixels])]
    have e2 : ((npixels - 1 : ℕ) : ℚ) = 2399 := by norm_num [npixels]
    rw [e2, mul_comm (2399 : ℚ) ((b - a) / 2399),
      div_mul_cancel₀ _ (by norm_num : (2399 : ℚ) ≠ 0)]
    ring
  · intro i j hij hj hab
    rw [linspace_getElem! a b (lt_of_le_of_lt hij hj), linspace_getElem! a b hj]
    have hs : (0 : ℚ) ≤ (b - a) / ((npixels - 1 : ℕ) : ℚ) := by
      apply div_nonneg (by linarith)
      norm_num [npixels]
    have hcast : (i : ℚ) ≤ (j : ℚ) := by exact_mod_cast hij
    have := mul_le_mul_of_nonneg_right hcast hs
    linarith
  · intro i j hij hj hba
    rw [linspace_getElem! a b (lt_of_le_of_lt hij hj), linspace_getElem! a b hj]
    have hs : (b - a) / ((npixels - 1 : ℕ) : ℚ) ≤ 0 := by
      apply div_nonpos_of_nonpos_of_nonneg (by linarith)
      norm_num [npixels]
    have hcast : (i : ℚ) ≤ (j : ℚ) := by exact_mod_cast hij
    have := mul_le_mul_of_nonpos_right hcast hs
    linarith

theorem zipWith_getElem! {A B C : Type} [Inhabited A] [Inhabited B] [Inhabited C]
    (f : A → B → C) (as : List A) (bs : List B) {i : ℕ}
    (ha : i < as.length) (hb : i < bs.length) :
    (List.zipWith f as bs)[i]! = f as[i]! bs[i]! := by
  rw [getElem!_pos (List.zipWith f as bs) i (by rw [List.length_zipWith]; omega),
    getElem!_pos as i ha, getElem!_pos bs i hb]
  simp [List.getElem_zipWith]

theorem map_getElem! {A B : Type} [Inhabited A] [Inhabited B]
    (f : A → B) (l : List A) {i : ℕ} (h : i < l.length) :
    (l.map f)[i]! = f l[i]! := by
  rw [getElem!_pos (l.map f) i (by rw [List.length_map]; exact h),
    getElem!_pos l i h]
  simp [List.getElem_map]

theorem lonsGrid_entry! (inv : ℚ → ℚ → ℝ × ℝ) (xul yul xlr ylr : ℚ)
    {i j : ℕ} (hi : i < npixels) (hj : j < npixels) :
    ((lonsGrid inv (gridXY xul yul xlr ylr).1 (gridXY xul yul xlr ylr).2)[i]!)[j]!
      = (inv ((linspace xul xlr npixels)[j]!) ((linspace yul ylr npixels)[i]!)).1 := by
  have hxs : (linspace xul xlr npixels).length = npixels := linspace_length _ _ _
  have hys : (linspace yul ylr npixels).length = npixels := linspace_length _ _ _
  have h1 : (lonsGrid inv (gridXY xul yul xlr ylr).1 (gridXY xul yul xlr ylr).2)[i]!
      = List.zipWith (fun x y => (inv x y).1) (linspace xul xlr npixels)
          ((linspace xul xlr npixels).map
            (fun _ => (linspace yul ylr npixels)[i]!)) := by
    rw [lonsGrid, gridXY, meshgrid]
    rw [zipWith_getElem! _ _ _ (by rw [List.length_map, hys]; exact hi)
      (by rw [List.length_map, hys]; exact hi)]
    rw [map_getElem! _ _ (by rw [hys]; exact hi),
      map_getElem! _ _ (by rw [hys]; exact hi)]
  rw [h1]
  rw [zipWith_getElem! _ _ _ (by rw [hxs]; exact hj)
    (by rw [List.length_map, hxs]; exact hj)]
  rw [map_getElem! _ _ (by rw [hxs]; exact hj)]

theorem latsGrid_entry! (inv : ℚ → ℚ → ℝ × ℝ) (xul yul xlr ylr : ℚ)
    {i j : ℕ} (hi : i < npixels) (hj : j < npixels) :
    ((latsGrid inv (gridXY xul yul xlr ylr).1 (gridXY xul yul xlr ylr).2)[i]!)[j]!
      = (inv ((linspace xul xlr npixels)[j]!) ((linspace yul ylr npixels)[i]!)).2 := by
  have hxs : (linspace xul xlr npixels).length = npixels := linspace_length _ _ _
  have hys : (linspace yul ylr npixels).length = npixels := linspace_length _ _ _
  have h1 : (latsGrid inv (gridXY xul yul xlr ylr).1 (gridXY xul yul xlr ylr).2)[i]!
      = List.zipWith (fun x y => (inv x y).2) (linspace xul xlr npixels)
          ((linspace xul xlr npixels).map
            (fun _ => (linspace yul ylr npixels)[i]!)) := by
    rw [latsGrid, gridXY, meshgrid]
    rw [zipWith_getElem! _ _ _ (by rw [List.length_map, hys]; exact hi)
      (by rw [List.length_map, hys]; exact hi)]
    rw [map_getElem! _ _ (by rw [hys]; exact hi),
      map_getElem! _ _ (by rw [hys]; exact hi)]
  rw [h1]
  rw [zipWith_getElem! _ _ _ (by rw [hxs]; exact hj)
    (by rw [List.length_map, hxs]; exact hj)]
  rw [map_getElem! _ _ (by rw [hxs]; exact hj)]

/-- The value of `projRadius` as a real number. -/
theorem projRadius_cast : ((projRadius : ℚ) : ℝ) = 6371007181 / 1000 := by
  rw [projRadius, Rat.divInt_eq_div]
  push_cast
  norm_num

/-- A linspace entry stays within any symmetric bound that holds at both
endpoints (the entry is a convex combination of them). -/
theorem linspace_entry_abs_le (a b : ℚ) {M : ℝ}
    (ha : |(a : ℝ)| ≤ M) (hb : |(b : ℝ)| ≤ M) {i : ℕ} (hi : i < npixels) :
    |(((linspace a b npixels)[i]! : ℚ) : ℝ)| ≤ M := by
  rw [linspace_getElem! a b hi]
  have e2 : ((npixels - 1 : ℕ) : ℚ) = 2399 := by norm_num [npixels]
  rw [e2]
  have hi' : (i : ℝ) ≤ 2399 := by
    have h24 : i < 2400 := by simpa [npixels] using hi
    have : i ≤ 2399 := by omega
    exact_mod_cast this
  have hc0 : (0 : ℝ) ≤ (i : ℝ) / 2399 := by positivity
  have hc1 : (i : ℝ) / 2399 ≤ 1 := by
    rw [div_le_one (by norm_num : (0:ℝ) < 2399)]
    exact hi'
  have hy : ((a + (i : ℚ) * ((b - a) / 2399) : ℚ) : ℝ)
      = (1 - (i : ℝ) / 2399) * (a : ℝ) + ((i : ℝ) / 2399) * (b : ℝ) := by
    push_cast
    field_simp
    ring
  rw [hy]
  calc |(1 - (i : ℝ) / 2399) * (a : ℝ) + ((i : ℝ) / 2399) * (b : ℝ)|
      ≤ |(1 - (i : ℝ) / 2399) * (a : ℝ)| + |((i : ℝ) / 2399) * (b : ℝ)| :=
        abs_add _ _
    _ = (1 - (i : ℝ) / 2399) * |(a : ℝ)| + ((i : ℝ) / 2399) * |(b : ℝ)| := by
        rw [abs_mul, abs_mul, abs_of_nonneg (by linarith), abs_of_nonneg hc0]
    _ ≤ (1 - (i : ℝ) / 2399) * M + ((i : ℝ) / 2399) * M := by
        have hM : 0 ≤ M := le_trans (abs_nonneg _) ha
        exact add_le_add (mul_le_mul_of_nonneg_left ha (by linarith))
          (mul_le_mul_of_nonneg_left hb hc0)
    _ = M := by ring

/-- C6 amended (latitude part): if both parsed corner `y` values lie within
the sinusoidal extent `[-πR/2, πR/2]`, then every entry of the latitude
grid lies within `[-90, 90]`. -/
theorem c6_latitudes_in_range (xul yul xlr ylr : ℚ)
    (hyu : |((yul : ℚ) : ℝ)| ≤ Real.pi * ((projRadius : ℚ) : ℝ) / 2)
    (hyl : |((ylr : ℚ) : ℝ)| ≤ Real.pi * ((projRadius : ℚ) : ℝ) / 2)
    {i j : ℕ} (hi : i < npixels) (hj : j < npixels) :
    -90 ≤ ((latsGrid sinuInv (gridXY xul yul xlr ylr).1
        (gridXY xul yul xlr ylr).2)[i]!)[j]! ∧
    ((latsGrid sinuInv (gridXY xul yul xlr ylr).1
        (gridXY xul yul xlr ylr).2)[i]!)[j]! ≤ 90 := by
  rw [latsGrid_entry! sinuInv xul yul xlr ylr hi hj]
  set yq : ℚ := (linspace yul ylr npixels)[i]! with hyq
  have hybound : |((yq : ℚ) : ℝ)| ≤ Real.pi * ((projRadius : ℚ) : ℝ) / 2 :=
    linspace_entry_abs_le yul ylr hyu hyl hi
  have hR : ((projRadius : ℚ) : ℝ) = 6371007181 / 1000 := projRadius_cast
  have hRpos : (0 : ℝ) < ((projRadius : ℚ) : ℝ) := by rw [hR]; norm_num
  have hπ : (0 : ℝ) < Real.pi := Real.pi_pos
  have key : |(sinuInv ((linspace xul xlr npixels)[j]!) yq).2| ≤ 90 := by
    show |((yq : ℝ) / ((projRadius : ℚ) : ℝ)) * (180 / Real.pi)| ≤ 90
    rw [abs_mul, abs_div, abs_of_pos hRpos,
      abs_of_pos (by positivity : (0 : ℝ) < 180 / Real.pi)]
    have h1 : |(yq : ℝ)| / ((projRadius : ℚ) : ℝ) ≤ Real.pi / 2 := by
      rw [div_le_iff₀ hRpos]
      calc |(yq : ℝ)| ≤ Real.pi * ((projRadius : ℚ) : ℝ) / 2 := hybound
        _ = Real.pi / 2 * ((projRadius : ℚ) : ℝ) := by ring
    calc |(yq : ℝ)| / ((projRadius : ℚ) : ℝ) * (180 / Real.pi)
        ≤ Real.pi / 2 * (180 / Real.pi) := by
          exact mul_le_mul_of_nonneg_right h1 (by positivity)
      _ = 90 := by
          field_simp
          ring
  exact abs_le.mp key

/-- C6 amended witness: with all four corner values `0`, grid entry `(0,0)`
of the latitude grid lies within `[-90, 90]`. -/
theorem c6_latitudes_witness :
    -90 ≤ ((latsGrid sinuInv (gridXY 0 0 0 0).1 (gridXY 0 0 0 0).2)[0]!)[0]! ∧
    ((latsGrid sinuInv (gridXY 0 0 0 0).1 (gridXY 0 0 0 0).2)[0]!)[0]! ≤ 90 :=
  c6_latitudes_in_range 0 0 0 0
    (by rw [Rat.cast_zero, abs_zero, projRadius_cast]; positivity)
    (by rw [Rat.cast_zero, abs_zero, projRadius_cast]; positivity)
    (by norm_num [npixels]) (by norm_num [npixels])

/-- C6 counterexample: for the corner pair of MODIS tile `h00v02`
(`x_ul = -20015109.354`, `y_ul = 7783653.637`, both inside the sinusoidal
extent — the `y` values satisfy the latitude-part hypothesis), the very
first entry of the longitude grid is below `-180`: the longitude grid is
not confined to `[-180, 180]`. -/
theorem c6_longitude_counterexample :
    |((Rat.divInt 7783653637 1000 : ℚ) : ℝ)|
        ≤ Real.pi * ((projRadius : ℚ) : ℝ) / 2 ∧
    ((lonsGrid sinuInv
        (gridXY (Rat.divInt (-20015109354) 1000) (Rat.divInt 7783653637 1000)
          (Rat.divInt (-18903158834) 1000) (Rat.divInt 6671703118 1000)).1
        (gridXY (Rat.divInt (-20015109354) 1000) (Rat.divInt 7783653637 1000)
          (Rat.divInt (-18903158834) 1000) (Rat.divInt 6671703118 1000)).2)[0]!)[0]!
      < -180 := by
  have hR : ((projRadius : ℚ) : ℝ) = 6371007181 / 1000 := projRadius_cast
  have hπ : (0 : ℝ) < Real.pi := Real.pi_pos
  have hπlo : (3.141592 : ℝ) < Real.pi := Real.pi_gt_d6
  have hπhi : Real.pi < 3.141593 := Real.pi_lt_d6
  have hyv : ((Rat.divInt 7783653637 1000 : ℚ) : ℝ) = 7783653637 / 1000 := by
    rw [Rat.divInt_eq_div]
    push_cast
    norm_num
  have hxv : ((Rat.divInt (-20015109354) 1000 : ℚ) : ℝ) = -20015109354 / 1000 := by
    rw [Rat.divInt_eq_div]
    push_cast
    norm_num
  have h0 : (0 : ℕ) < npixels := by norm_num [npixels]
  constructor
  · rw [hyv, hR, abs_of_pos (by norm_num)]
    linarith
  · rw [lonsGrid_entry! sinuInv _ _ _ _ h0 h0]
    have hx0 : (linspace (Rat.divInt (-20015109354) 1000)
        (Rat.divInt (-18903158834) 1000) npixels)[0]!
        = Rat.divInt (-20015109354) 1000 := by
      rw [linspace_getElem! _ _ h0]
      push_cast
      ring
    have hy0 : (linspace (Rat.divInt 7783653637 1000)
        (Rat.divInt 6671703118 1000) npixels)[0]!
        = Rat.divInt 7783653637 1000 := by
      rw [linspace_getElem! _ _ h0]
      push_cast
      ring
    rw [hx0, hy0]
    show ((Rat.divInt (-20015109354) 1000 : ℚ) : ℝ) /
          (((projRadius : ℚ) : ℝ) *
            Real.cos (((Rat.divInt 7783653637 1000 : ℚ) : ℝ) / ((projRadius : ℚ) : ℝ)))
        * (180 / Real.pi) < -180
    rw [hxv, hyv, hR]
    have ht : (7783653637 / 1000 : ℝ) / (6371007181 / 1000) = 7783653637 / 6371007181 := by
      norm_num
    rw [ht]
    set t : ℝ := 7783653637 / 6371007181 with htdef
    have ht_nonneg : (0 : ℝ) ≤ t := by rw [htdef]; positivity
    have htlo : Real.pi / 3 < t := by
      have hnum : (3.141593 : ℝ) / 3 < 7783653637 / 6371007181 := by norm_num
      rw [htdef]
      linarith
    have hthi : t < Real.pi / 2 := by
      have hnum : (7783653637 : ℝ) / 6371007181 < 3.141592 / 2 := by norm_num
      rw [htdef]
      linarith
    have ht_le_pi : t ≤ Real.pi := by
      have hhalf : Real.pi / 2 < Real.pi := by linarith
      exact le_of_lt (hthi.trans hhalf)
    have hcos_pos : (0 : ℝ) < Real.cos t :=
      Real.cos_pos_of_mem_Ioo ⟨by linarith, hthi⟩
    have hcos_lt : Real.cos t < 1 / 2 := by
      have hmem3 : Real.pi / 3 ∈ Set.Icc (0 : ℝ) Real.pi := ⟨by positivity, by linarith⟩
      have hmemt : t ∈ Set.Icc (0 : ℝ) Real.pi := ⟨ht_nonneg, ht_le_pi⟩
      have := Real.strictAntiOn_cos hmem3 hmemt htlo
      rwa [Real.cos_pi_div_three] at this
    have hRpos : (0 : ℝ) < (6371007181 / 1000 : ℝ) := by norm_num
    have hc_pos : (0 : ℝ) < 6371007181 / 1000 * Real.cos t := by positivity
    rw [div_mul_eq_mul_div, div_lt_iff₀ hc_pos]
    have step1 : (-180 : ℝ) * (6371007181 / 1000 / 2)
        < -180 * (6371007181 / 1000 * Real.cos t) := by
      nlinarith
    have step2 : (-20015109354 / 1000 : ℝ) * (180 / Real.pi)
        < -180 * (6371007181 / 1000 / 2) := by
      have he : (-20015109354 / 1000 : ℝ) * (180 / Real.pi)
          = 180 * (-20015109354 / 1000) / Real.pi := by ring
      rw [he, div_lt_iff₀ hπ]
      linarith
    linarith

/-- C4 witness: with parsed corner values `0` and `1`, the sequence starts
at `0`, ends at `1`, and entry 0 is at most entry 5. -/
theorem c4_linspace_witness :
    (linspace (0 : ℚ) 1 npixels)[0]! = 0 ∧
    (linspace (0 : ℚ) 1 npixels)[npixels - 1]! = 1 ∧
    (linspace (0 : ℚ) 1 npixels)[0]! ≤ (linspace (0 : ℚ) 1 npixels)[5]! :=
  ⟨(c4_linspace_endpoints_monotone 0 1).1,
   (c4_linspace_endpoints_monotone 0 1).2.1,
   (c4_linspace_endpoints_monotone 0 1).2.2.1 0 5 (by norm_num)
     (by norm_num [npixels]) (by norm_num)⟩

end Modislc
